import Mathlib

/-!
Shallow embedding of the MessagePack decode core (`src/core/decode.rs`) of the
`messpack-serde` repository, together with theorems settling the frozen claims
about it.

Modelling conventions:
* Bytes are naturals (`< 256` for real input); an input slice / reader over an
  in-memory buffer is a `List Nat`, consumed from the front.
* Every stateful reader `fn f<R: Read>(rd: &mut R) -> Result<T, E>` becomes a
  function `Bytes → Except E T × Bytes` returning the result together with the
  bytes remaining in the reader afterwards (also on the error path, mirroring
  `&mut R`).  A failed fixed-width data read consumes all remaining bytes, as
  `byteorder`'s `read_full` loop does.
* In-memory I/O never produces an `io::Error`, so the `Io` error variants are
  declared (for the error-taxonomy conversions) but never constructed.
* Functions whose Rust body can panic (`unimplemented!()`, unchecked slice
  indexing) return an `Option`, with `none` modelling the panic.
* `f32`/`f64` values are modelled by their IEEE-754 bit patterns as naturals:
  the Rust code obtains them as `from_bits` of the big-endian `u32`/`u64`
  payload, so the bit pattern is exactly what the decoder computes.
-/

namespace MsgPack

/-- An input byte sequence (a `&[u8]` slice or the bytes remaining in a
reader). -/
abbrev Bytes := List Nat

/-- The `Marker` tagged union over the MessagePack wire shapes.
Modelled from the spec: the `Marker` type lives outside `src/` (only its use
sites are in `src/core/decode.rs`); its variants follow spec section 3 and the
byte-range table of spec section 6.  `Reserved` is the unused byte `0xc1`. -/
inductive Marker where
  | Null
  | True
  | False
  | PositiveFixnum (v : Nat)
  | NegativeFixnum (v : Int)
  | U8 | U16 | U32 | U64
  | I8 | I16 | I32 | I64
  | F32 | F64
  | FixedString (len : Nat)
  | Str8 | Str16 | Str32
  | Bin8 | Bin16 | Bin32
  | FixedArray (len : Nat)
  | Array16 | Array32
  | FixedMap (len : Nat)
  | Map16 | Map32
  | FixExt1 | FixExt2 | FixExt4 | FixExt8 | FixExt16
  | Ext8 | Ext16 | Ext32
  | Reserved
  deriving DecidableEq

/-- `Marker::from_u8`: the total, pure map from a raw byte to its marker.
Modelled from the spec: the wire-format table of spec section 6 (the function
itself lives outside `src/`); every byte maps to exactly one variant. -/
def Marker.from_u8 (b : Nat) : Marker :=
  if b ≤ 0x7f then .PositiveFixnum b
  else if b ≤ 0x8f then .FixedMap (b - 0x80)
  else if b ≤ 0x9f then .FixedArray (b - 0x90)
  else if b ≤ 0xbf then .FixedString (b - 0xa0)
  else if b = 0xc0 then .Null
  else if b = 0xc1 then .Reserved
  else if b = 0xc2 then .False
  else if b = 0xc3 then .True
  else if b = 0xc4 then .Bin8
  else if b = 0xc5 then .Bin16
  else if b = 0xc6 then .Bin32
  else if b = 0xc7 then .Ext8
  else if b = 0xc8 then .Ext16
  else if b = 0xc9 then .Ext32
  else if b = 0xca then .F32
  else if b = 0xcb then .F64
  else if b = 0xcc then .U8
  else if b = 0xcd then .U16
  else if b = 0xce then .U32
  else if b = 0xcf then .U64
  else if b = 0xd0 then .I8
  else if b = 0xd1 then .I16
  else if b = 0xd2 then .I32
  else if b = 0xd3 then .I64
  else if b = 0xd4 then .FixExt1
  else if b = 0xd5 then .FixExt2
  else if b = 0xd6 then .FixExt4
  else if b = 0xd7 then .FixExt8
  else if b = 0xd8 then .FixExt16
  else if b = 0xd9 then .Str8
  else if b = 0xda then .Str16
  else if b = 0xdb then .Str32
  else if b = 0xdc then .Array16
  else if b = 0xdd then .Array32
  else if b = 0xde then .Map16
  else if b = 0xdf then .Map32
  else .NegativeFixnum ((b : Int) - 256)

/-- `ReadError`: failure of a raw byte read (`UnexpectedEOF` or an underlying
`io::Error`; the latter never occurs on in-memory slices). -/
inductive ReadError where
  | UnexpectedEOF
  | IoErr
  deriving DecidableEq

/-- `MarkerReadError`: a byte-read failure that occurred while reading the
1-byte marker. -/
inductive MarkerReadError where
  | UnexpectedEOF
  | IoErr
  deriving DecidableEq

/-- `impl From<MarkerReadError> for ReadError`. -/
def ReadError.ofMarkerReadError : MarkerReadError → ReadError
  | .UnexpectedEOF => .UnexpectedEOF
  | .IoErr => .IoErr

/-- `FixedValueReadError`: failure while reading a single-byte value. -/
inductive FixedValueReadError where
  | UnexpectedEOF
  | IoErr
  | TypeMismatch (m : Marker)
  deriving DecidableEq

/-- `impl From<MarkerReadError> for FixedValueReadError`. -/
def FixedValueReadError.ofMarkerReadError : MarkerReadError → FixedValueReadError
  | .UnexpectedEOF => .UnexpectedEOF
  | .IoErr => .IoErr

/-- `ValueReadError`: failure while reading a multi-byte value, separating the
marker stage from the data stage. -/
inductive ValueReadError where
  | InvalidMarkerRead (e : ReadError)
  | InvalidDataRead (e : ReadError)
  | TypeMismatch (m : Marker)
  deriving DecidableEq

/-- `impl From<MarkerReadError> for ValueReadError`. -/
def ValueReadError.ofMarkerReadError (e : MarkerReadError) : ValueReadError :=
  .InvalidMarkerRead (ReadError.ofMarkerReadError e)

/-- `Utf8Error`: the UTF-8 validation failure of `str::from_utf8`, carrying
the number of leading bytes that were valid. -/
structure Utf8Error where
  valid_up_to : Nat
  deriving DecidableEq

/-- `DecodeStringError`: failure while decoding a string payload. -/
inductive DecodeStringError where
  | InvalidMarkerRead (e : ReadError)
  | InvalidDataRead (e : ReadError)
  | TypeMismatch (m : Marker)
  | BufferSizeTooSmall (n : Nat)
  | InvalidDataCopy (partial_ : Bytes) (e : ReadError)
  | InvalidUtf8 (buf : Bytes) (e : Utf8Error)
  deriving DecidableEq

/-- `impl From<ValueReadError> for DecodeStringError`. -/
def DecodeStringError.ofValueReadError : ValueReadError → DecodeStringError
  | .InvalidMarkerRead e => .InvalidMarkerRead e
  | .InvalidDataRead e => .InvalidDataRead e
  | .TypeMismatch m => .TypeMismatch m

/-- `read_marker`: read one byte, decode it with `Marker::from_u8`. -/
def read_marker (rd : Bytes) : Except MarkerReadError Marker × Bytes :=
  match rd with
  | [] => (.error .UnexpectedEOF, [])
  | b :: rest => (.ok (Marker.from_u8 b), rest)

/-- Big-endian accumulation of a byte list into a natural. -/
def beVal (l : Bytes) : Nat := l.foldl (fun a b => 256 * a + b) 0

/-- Read exactly `n` bytes big-endian (`byteorder`'s fixed-width reads).
On a short read the `read_full` loop consumes all remaining bytes before
reporting `UnexpectedEOF`. -/
def read_be (n : Nat) (rd : Bytes) : Except ReadError Nat × Bytes :=
  if n ≤ rd.length then (.ok (beVal (rd.take n)), rd.drop n)
  else (.error .UnexpectedEOF, [])

/-- Two's-complement reinterpretation of a `w`-bit unsigned value. -/
def toSigned (w : Nat) (n : Nat) : Int :=
  if n < 2 ^ (w - 1) then (n : Int) else (n : Int) - 2 ^ w

/-- `read_data_u8` (generated by `make_read_data_fn!`). -/
def read_data_u8 (rd : Bytes) : Except ValueReadError Nat × Bytes :=
  match read_be 1 rd with
  | (.ok v, r) => (.ok v, r)
  | (.error e, r) => (.error (.InvalidDataRead e), r)

/-- `read_data_u16`. -/
def read_data_u16 (rd : Bytes) : Except ValueReadError Nat × Bytes :=
  match read_be 2 rd with
  | (.ok v, r) => (.ok v, r)
  | (.error e, r) => (.error (.InvalidDataRead e), r)

/-- `read_data_u32`. -/
def read_data_u32 (rd : Bytes) : Except ValueReadError Nat × Bytes :=
  match read_be 4 rd with
  | (.ok v, r) => (.ok v, r)
  | (.error e, r) => (.error (.InvalidDataRead e), r)

/-- `read_data_u64`. -/
def read_data_u64 (rd : Bytes) : Except ValueReadError Nat × Bytes :=
  match read_be 8 rd with
  | (.ok v, r) => (.ok v, r)
  | (.error e, r) => (.error (.InvalidDataRead e), r)

/-- `read_data_i8`. -/
def read_data_i8 (rd : Bytes) : Except ValueReadError Int × Bytes :=
  match read_be 1 rd with
  | (.ok v, r) => (.ok (toSigned 8 v), r)
  | (.error e, r) => (.error (.InvalidDataRead e), r)

/-- `read_data_i16`. -/
def read_data_i16 (rd : Bytes) : Except ValueReadError Int × Bytes :=
  match read_be 2 rd with
  | (.ok v, r) => (.ok (toSigned 16 v), r)
  | (.error e, r) => (.error (.InvalidDataRead e), r)

/-- `read_data_i32`. -/
def read_data_i32 (rd : Bytes) : Except ValueReadError Int × Bytes :=
  match read_be 4 rd with
  | (.ok v, r) => (.ok (toSigned 32 v), r)
  | (.error e, r) => (.error (.InvalidDataRead e), r)

/-- `read_data_i64`. -/
def read_data_i64 (rd : Bytes) : Except ValueReadError Int × Bytes :=
  match read_be 8 rd with
  | (.ok v, r) => (.ok (toSigned 64 v), r)
  | (.error e, r) => (.error (.InvalidDataRead e), r)

/-- `read_data_f32`: an `f32` is `f32::from_bits` of the big-endian `u32`;
the value is modelled by that bit pattern. -/
def read_data_f32 (rd : Bytes) : Except ValueReadError Nat × Bytes :=
  match read_be 4 rd with
  | (.ok v, r) => (.ok v, r)
  | (.error e, r) => (.error (.InvalidDataRead e), r)

/-- `read_data_f64`: an `f64` modelled by its 64-bit pattern. -/
def read_data_f64 (rd : Bytes) : Except ValueReadError Nat × Bytes :=
  match read_be 8 rd with
  | (.ok v, r) => (.ok v, r)
  | (.error e, r) => (.error (.InvalidDataRead e), r)

/-- `read_nil`: a single `0xc0` marker byte. -/
def read_nil (rd : Bytes) : Except FixedValueReadError Unit × Bytes :=
  match read_marker rd with
  | (.error e, r) => (.error (FixedValueReadError.ofMarkerReadError e), r)
  | (.ok m, r) =>
    match m with
    | .Null => (.ok (), r)
    | marker => (.error (.TypeMismatch marker), r)

/-- `read_bool`. -/
def read_bool (rd : Bytes) : Except FixedValueReadError Bool × Bytes :=
  match read_marker rd with
  | (.error e, r) => (.error (FixedValueReadError.ofMarkerReadError e), r)
  | (.ok m, r) =>
    match m with
    | .True => (.ok true, r)
    | .False => (.ok false, r)
    | marker => (.error (.TypeMismatch marker), r)

/-- `read_pfix`: positive fixnum, value carried in the marker byte. -/
def read_pfix (rd : Bytes) : Except FixedValueReadError Nat × Bytes :=
  match read_marker rd with
  | (.error e, r) => (.error (FixedValueReadError.ofMarkerReadError e), r)
  | (.ok m, r) =>
    match m with
    | .PositiveFixnum val => (.ok val, r)
    | marker => (.error (.TypeMismatch marker), r)

/-- `read_nfix`: negative fixnum, value carried in the marker byte. -/
def read_nfix (rd : Bytes) : Except FixedValueReadError Int × Bytes :=
  match read_marker rd with
  | (.error e, r) => (.error (FixedValueReadError.ofMarkerReadError e), r)
  | (.ok m, r) =>
    match m with
    | .NegativeFixnum val => (.ok val, r)
    | marker => (.error (.TypeMismatch marker), r)

/-- `read_u8`: strict, marker `U8` then one data byte. -/
def read_u8 (rd : Bytes) : Except ValueReadError Nat × Bytes :=
  match read_marker rd with
  | (.error e, r) => (.error (ValueReadError.ofMarkerReadError e), r)
  | (.ok m, r) =>
    match m with
    | .U8 => read_data_u8 r
    | marker => (.error (.TypeMismatch marker), r)

/-- `read_u16`. -/
def read_u16 (rd : Bytes) : Except ValueReadError Nat × Bytes :=
  match read_marker rd with
  | (.error e, r) => (.error (ValueReadError.ofMarkerReadError e), r)
  | (.ok m, r) =>
    match m with
    | .U16 => read_data_u16 r
    | marker => (.error (.TypeMismatch marker), r)

/-- `read_u32`. -/
def read_u32 (rd : Bytes) : Except ValueReadError Nat × Bytes :=
  match read_marker rd with
  | (.error e, r) => (.error (ValueReadError.ofMarkerReadError e), r)
  | (.ok m, r) =>
    match m with
    | .U32 => read_data_u32 r
    | marker => (.error (.TypeMismatch marker), r)

/-- `read_u64`. -/
def read_u64 (rd : Bytes) : Except ValueReadError Nat × Bytes :=
  match read_marker rd with
  | (.error e, r) => (.error (ValueReadError.ofMarkerReadError e), r)
  | (.ok m, r) =>
    match m with
    | .U64 => read_data_u64 r
    | marker => (.error (.TypeMismatch marker), r)

/-- `read_i8`. -/
def read_i8 (rd : Bytes) : Except ValueReadError Int × Bytes :=
  match read_marker rd with
  | (.error e, r) => (.error (ValueReadError.ofMarkerReadError e), r)
  | (.ok m, r) =>
    match m with
    | .I8 => read_data_i8 r
    | marker => (.error (.TypeMismatch marker), r)

/-- `read_i16`. -/
def read_i16 (rd : Bytes) : Except ValueReadError Int × Bytes :=
  match read_marker rd with
  | (.error e, r) => (.error (ValueReadError.ofMarkerReadError e), r)
  | (.ok m, r) =>
    match m with
    | .I16 => read_data_i16 r
    | marker => (.error (.TypeMismatch marker), r)

/-- `read_i32`. -/
def read_i32 (rd : Bytes) : Except ValueReadError Int × Bytes :=
  match read_marker rd with
  | (.error e, r) => (.error (ValueReadError.ofMarkerReadError e), r)
  | (.ok m, r) =>
    match m with
    | .I32 => read_data_i32 r
    | marker => (.error (.TypeMismatch marker), r)

/-- `read_i64`. -/
def read_i64 (rd : Bytes) : Except ValueReadError Int × Bytes :=
  match read_marker rd with
  | (.error e, r) => (.error (ValueReadError.ofMarkerReadError e), r)
  | (.ok m, r) =>
    match m with
    | .I64 => read_data_i64 r
    | marker => (.error (.TypeMismatch marker), r)

/-- `read_f32`: strict, marker `F32` then 4 data bytes (value = bit pattern). -/
def read_f32 (rd : Bytes) : Except ValueReadError Nat × Bytes :=
  match read_marker rd with
  | (.error e, r) => (.error (ValueReadError.ofMarkerReadError e), r)
  | (.ok m, r) =>
    match m with
    | .F32 => read_data_f32 r
    | marker => (.error (.TypeMismatch marker), r)

/-- `read_f64`. -/
def read_f64 (rd : Bytes) : Except ValueReadError Nat × Bytes :=
  match read_marker rd with
  | (.error e, r) => (.error (ValueReadError.ofMarkerReadError e), r)
  | (.ok m, r) =>
    match m with
    | .F64 => read_data_f64 r
    | marker => (.error (.TypeMismatch marker), r)

/-- `read_u8_loosely`: positive fixnum or `U8`. -/
def read_u8_loosely (rd : Bytes) : Except ValueReadError Nat × Bytes :=
  match read_marker rd with
  | (.error e, r) => (.error (ValueReadError.ofMarkerReadError e), r)
  | (.ok m, r) =>
    match m with
    | .PositiveFixnum val => (.ok val, r)
    | .U8 => read_data_u8 r
    | marker => (.error (.TypeMismatch marker), r)

/-- `read_u16_loosely`: unsigned markers of width at most 16 bits, widened. -/
def read_u16_loosely (rd : Bytes) : Except ValueReadError Nat × Bytes :=
  match read_marker rd with
  | (.error e, r) => (.error (ValueReadError.ofMarkerReadError e), r)
  | (.ok m, r) =>
    match m with
    | .PositiveFixnum val => (.ok val, r)
    | .U8 => read_data_u8 r
    | .U16 => read_data_u16 r
    | marker => (.error (.TypeMismatch marker), r)

/-- `read_u32_loosely`. -/
def read_u32_loosely (rd : Bytes) : Except ValueReadError Nat × Bytes :=
  match read_marker rd with
  | (.error e, r) => (.error (ValueReadError.ofMarkerReadError e), r)
  | (.ok m, r) =>
    match m with
    | .PositiveFixnum val => (.ok val, r)
    | .U8 => read_data_u8 r
    | .U16 => read_data_u16 r
    | .U32 => read_data_u32 r
    | marker => (.error (.TypeMismatch marker), r)

/-- `read_u64_loosely`. -/
def read_u64_loosely (rd : Bytes) : Except ValueReadError Nat × Bytes :=
  match read_marker rd with
  | (.error e, r) => (.error (ValueReadError.ofMarkerReadError e), r)
  | (.ok m, r) =>
    match m with
    | .PositiveFixnum val => (.ok val, r)
    | .U8 => read_data_u8 r
    | .U16 => read_data_u16 r
    | .U32 => read_data_u32 r
    | .U64 => read_data_u64 r
    | marker => (.error (.TypeMismatch marker), r)

/-- `read_i8_loosely`: negative fixnum or `I8`. -/
def read_i8_loosely (rd : Bytes) : Except ValueReadError Int × Bytes :=
  match read_marker rd with
  | (.error e, r) => (.error (ValueReadError.ofMarkerReadError e), r)
  | (.ok m, r) =>
    match m with
    | .NegativeFixnum val => (.ok val, r)
    | .I8 => read_data_i8 r
    | marker => (.error (.TypeMismatch marker), r)

/-- `read_i16_loosely`. -/
def read_i16_loosely (rd : Bytes) : Except ValueReadError Int × Bytes :=
  match read_marker rd with
  | (.error e, r) => (.error (ValueReadError.ofMarkerReadError e), r)
  | (.ok m, r) =>
    match m with
    | .NegativeFixnum val => (.ok val, r)
    | .I8 => read_data_i8 r
    | .I16 => read_data_i16 r
    | marker => (.error (.TypeMismatch marker), r)

/-- `read_i32_loosely`. -/
def read_i32_loosely (rd : Bytes) : Except ValueReadError Int × Bytes :=
  match read_marker rd with
  | (.error e, r) => (.error (ValueReadError.ofMarkerReadError e), r)
  | (.ok m, r) =>
    match m with
    | .NegativeFixnum val => (.ok val, r)
    | .I8 => read_data_i8 r
    | .I16 => read_data_i16 r
    | .I32 => read_data_i32 r
    | marker => (.error (.TypeMismatch marker), r)

/-- `read_i64_loosely`. -/
def read_i64_loosely (rd : Bytes) : Except ValueReadError Int × Bytes :=
  match read_marker rd with
  | (.error e, r) => (.error (ValueReadError.ofMarkerReadError e), r)
  | (.ok m, r) =>
    match m with
    | .NegativeFixnum val => (.ok val, r)
    | .I8 => read_data_i8 r
    | .I16 => read_data_i16 r
    | .I32 => read_data_i32 r
    | .I64 => read_data_i64 r
    | marker => (.error (.TypeMismatch marker), r)

/-- `read_str_len`: string length header (fixstr inline, or `Str8/16/32`). -/
def read_str_len (rd : Bytes) : Except ValueReadError Nat × Bytes :=
  match read_marker rd with
  | (.error e, r) => (.error (ValueReadError.ofMarkerReadError e), r)
  | (.ok m, r) =>
    match m with
    | .FixedString size => (.ok size, r)
    | .Str8 => read_data_u8 r
    | .Str16 => read_data_u16 r
    | .Str32 => read_data_u32 r
    | marker => (.error (.TypeMismatch marker), r)

/-- `read_array_size`: array size header (fixarray inline, or `Array16/32`). -/
def read_array_size (rd : Bytes) : Except ValueReadError Nat × Bytes :=
  match read_marker rd with
  | (.error e, r) => (.error (ValueReadError.ofMarkerReadError e), r)
  | (.ok m, r) =>
    match m with
    | .FixedArray size => (.ok size, r)
    | .Array16 => read_data_u16 r
    | .Array32 => read_data_u32 r
    | marker => (.error (.TypeMismatch marker), r)

/-- `read_map_size`: map size header (fixmap inline, or `Map16/32`). -/
def read_map_size (rd : Bytes) : Except ValueReadError Nat × Bytes :=
  match read_marker rd with
  | (.error e, r) => (.error (ValueReadError.ofMarkerReadError e), r)
  | (.ok m, r) =>
    match m with
    | .FixedMap size => (.ok size, r)
    | .Map16 => read_data_u16 r
    | .Map32 => read_data_u32 r
    | marker => (.error (.TypeMismatch marker), r)

/-- `read_bin_len`: binary blob length header (`Bin8/16/32`). -/
def read_bin_len (rd : Bytes) : Except ValueReadError Nat × Bytes :=
  match read_marker rd with
  | (.error e, r) => (.error (ValueReadError.ofMarkerReadError e), r)
  | (.ok m, r) =>
    match m with
    | .Bin8 => read_data_u8 r
    | .Bin16 => read_data_u16 r
    | .Bin32 => read_data_u32 r
    | marker => (.error (.TypeMismatch marker), r)

/-- Is `b` a UTF-8 continuation byte (`0x80..=0xbf`)? -/
def isCont (b : Nat) : Bool := 0x80 ≤ b && b ≤ 0xbf

/-- UTF-8 validation scan following the sequence rules of `str::from_utf8`:
`pos` is the number of bytes already validated; returns the `Utf8Error` at
the first invalid or incomplete sequence, or `none` when the whole input is
valid. -/
def validateUtf8Aux : Bytes → Nat → Option Utf8Error
  | [], _ => none
  | b :: rest, pos =>
    if b ≤ 0x7f then validateUtf8Aux rest (pos + 1)
    else if 0xc2 ≤ b && b ≤ 0xdf then
      match rest with
      | c1 :: rest1 =>
        if isCont c1 then validateUtf8Aux rest1 (pos + 2) else some ⟨pos⟩
      | [] => some ⟨pos⟩
    else if 0xe0 ≤ b && b ≤ 0xef then
      match rest with
      | c1 :: c2 :: rest2 =>
        let firstOk :=
          if b = 0xe0 then 0xa0 ≤ c1 && c1 ≤ 0xbf
          else if b = 0xed then 0x80 ≤ c1 && c1 ≤ 0x9f
          else isCont c1
        if firstOk && isCont c2 then validateUtf8Aux rest2 (pos + 3)
        else some ⟨pos⟩
      | _ => some ⟨pos⟩
    else if 0xf0 ≤ b && b ≤ 0xf4 then
      match rest with
      | c1 :: c2 :: c3 :: rest3 =>
        let firstOk :=
          if b = 0xf0 then 0x90 ≤ c1 && c1 ≤ 0xbf
          else if b = 0xf4 then 0x80 ≤ c1 && c1 ≤ 0x8f
          else isCont c1
        if firstOk && isCont c2 && isCont c3 then validateUtf8Aux rest3 (pos + 4)
        else some ⟨pos⟩
      | _ => some ⟨pos⟩
    else some ⟨pos⟩

/-- `str::from_utf8`: the decoded `&str` is the same byte view, returned only
when the bytes are valid UTF-8. -/
def from_utf8 (buf : Bytes) : Except Utf8Error Bytes :=
  match validateUtf8Aux buf 0 with
  | none => .ok buf
  | some e => .error e

/-- `read_str_data`: copy exactly `len` bytes from the reader into the
caller's buffer (via `io::copy` onto a cursor), then validate UTF-8.  The
observable payloads (`Ok` view, `InvalidDataCopy` partial bytes, `InvalidUtf8`
bytes) are exactly the bytes copied from the stream. -/
def read_str_data (rd : Bytes) (len : Nat) (buf : Bytes) :
    Except DecodeStringError Bytes × Bytes :=
  let data := rd.take len
  if data.length = len then
    match from_utf8 data with
    | .ok decoded => (.ok decoded, rd.drop len)
    | .error err => (.error (.InvalidUtf8 data err), rd.drop len)
  else
    (.error (.InvalidDataCopy data .UnexpectedEOF), rd.drop len)

/-- `read_str`: length header, buffer-capacity check, then `read_str_data`
into the first `len` cells of the caller's buffer. -/
def read_str (rd : Bytes) (buf : Bytes) : Except DecodeStringError Bytes × Bytes :=
  match read_str_len rd with
  | (.error e, r) => (.error (DecodeStringError.ofValueReadError e), r)
  | (.ok len, r) =>
    if buf.length < len then (.error (.BufferSizeTooSmall len), r)
    else read_str_data r len (buf.take len)

/-- `read_str_ref`: decode the length header through a cursor over the input
slice, then return `&rd[start .. start + len]`.  The Rust indexing performs no
bounds check against the slice length and panics (`none`) when the slice is
shorter than `start + len`. -/
def read_str_ref (rd : Bytes) : Option (Except DecodeStringError Bytes) :=
  match read_str_len rd with
  | (.error e, _) => some (.error (DecodeStringError.ofValueReadError e))
  | (.ok len, r) =>
    if (rd.length - r.length) + len ≤ rd.length then
      some (.ok ((rd.drop (rd.length - r.length)).take len))
    else none

/-- `read_bin_borrow`: decode the length header through a cursor, then check
the declared payload against the slice length before sub-slicing. -/
def read_bin_borrow (rd : Bytes) : Except ValueReadError Bytes :=
  match read_bin_len rd with
  | (.error e, _) => .error e
  | (.ok len, r) =>
    if rd.length < (rd.length - r.length) + len then
      .error (.InvalidDataRead .UnexpectedEOF)
    else .ok ((rd.drop (rd.length - r.length)).take len)

/-- `read_fixext1`: marker, signed type-id byte, one data byte. -/
def read_fixext1 (rd : Bytes) : Except ValueReadError (Int × Nat) × Bytes :=
  match read_marker rd with
  | (.error e, r) => (.error (ValueReadError.ofMarkerReadError e), r)
  | (.ok m, r) =>
    match m with
    | .FixExt1 =>
      match read_data_i8 r with
      | (.error e, r1) => (.error e, r1)
      | (.ok id, r1) =>
        match read_data_u8 r1 with
        | (.error e, r2) => (.error e, r2)
        | (.ok data, r2) => (.ok (id, data), r2)
    | marker => (.error (.TypeMismatch marker), r)

/-- `read_fixext2`: marker, signed type-id byte, two data bytes. -/
def read_fixext2 (rd : Bytes) : Except ValueReadError (Int × Nat) × Bytes :=
  match read_marker rd with
  | (.error e, r) => (.error (ValueReadError.ofMarkerReadError e), r)
  | (.ok m, r) =>
    match m with
    | .FixExt2 =>
      match read_data_i8 r with
      | (.error e, r1) => (.error e, r1)
      | (.ok id, r1) =>
        match read_data_u16 r1 with
        | (.error e, r2) => (.error e, r2)
        | (.ok data, r2) => (.ok (id, data), r2)
    | marker => (.error (.TypeMismatch marker), r)

/-- `read_fixext4`: marker, type-id, then a 4-byte array obtained by
transmuting a little-endian `u32` read (the stream bytes in order on a
little-endian target).  A marker other than `FixExt4` hits `unimplemented!()`,
modelled by `none`. -/
def read_fixext4 (rd : Bytes) : Option (Except ValueReadError (Int × Bytes) × Bytes) :=
  match read_marker rd with
  | (.error e, r) => some (.error (ValueReadError.ofMarkerReadError e), r)
  | (.ok m, r) =>
    match m with
    | .FixExt4 =>
      match read_data_i8 r with
      | (.error e, r1) => some (.error e, r1)
      | (.ok id, r1) =>
        if 4 ≤ r1.length then some (.ok (id, r1.take 4), r1.drop 4)
        else some (.error (.InvalidDataRead .UnexpectedEOF), [])
    | _ => none

/-- `read_fixext8`: marker, type-id, then an 8-byte `io::copy`.  Both a short
copy and a marker other than `FixExt8` hit `unimplemented!()` (`none`). -/
def read_fixext8 (rd : Bytes) : Option (Except ValueReadError (Int × Bytes) × Bytes) :=
  match read_marker rd with
  | (.error e, r) => some (.error (ValueReadError.ofMarkerReadError e), r)
  | (.ok m, r) =>
    match m with
    | .FixExt8 =>
      match read_data_i8 r with
      | (.error e, r1) => some (.error e, r1)
      | (.ok id, r1) =>
        if 8 ≤ r1.length then some (.ok (id, r1.take 8), r1.drop 8)
        else none
    | _ => none

/-- `read_fixext16`: as `read_fixext8` with a 16-byte payload. -/
def read_fixext16 (rd : Bytes) : Option (Except ValueReadError (Int × Bytes) × Bytes) :=
  match read_marker rd with
  | (.error e, r) => some (.error (ValueReadError.ofMarkerReadError e), r)
  | (.ok m, r) =>
    match m with
    | .FixExt16 =>
      match read_data_i8 r with
      | (.error e, r1) => some (.error e, r1)
      | (.ok id, r1) =>
        if 16 ≤ r1.length then some (.ok (id, r1.take 16), r1.drop 16)
        else none
    | _ => none

/-- `ExtMeta`: unified extension descriptor. -/
structure ExtMeta where
  typeid : Int
  size : Nat
  deriving DecidableEq

/-- The tail of `read_ext_meta` once the size is known: read the signed
type-id byte and build the descriptor. -/
def read_ext_meta_tail (size : Nat) (r : Bytes) : Except ValueReadError ExtMeta × Bytes :=
  match read_data_i8 r with
  | (.error e, r1) => (.error e, r1)
  | (.ok typeid, r1) => (.ok ⟨typeid, size⟩, r1)

/-- `read_ext_meta`: unify fixed and variable ext headers.  A non-ext marker
hits `unimplemented!()` (`none`). -/
def read_ext_meta (rd : Bytes) : Option (Except ValueReadError ExtMeta × Bytes) :=
  match read_marker rd with
  | (.error e, r) => some (.error (ValueReadError.ofMarkerReadError e), r)
  | (.ok m, r) =>
    match m with
    | .FixExt1 => some (read_ext_meta_tail 1 r)
    | .FixExt2 => some (read_ext_meta_tail 2 r)
    | .FixExt4 => some (read_ext_meta_tail 4 r)
    | .FixExt8 => some (read_ext_meta_tail 8 r)
    | .FixExt16 => some (read_ext_meta_tail 16 r)
    | .Ext8 =>
      match read_data_u8 r with
      | (.error e, r1) => some (.error e, r1)
      | (.ok size, r1) => some (read_ext_meta_tail size r1)
    | .Ext16 =>
      match read_data_u16 r with
      | (.error e, r1) => some (.error e, r1)
      | (.ok size, r1) => some (read_ext_meta_tail size r1)
    | .Ext32 =>
      match read_data_u32 r with
      | (.error e, r1) => some (.error e, r1)
      | (.ok size, r1) => some (read_ext_meta_tail size r1)
    | _ => none

namespace serialize

/-- The generic decode adapter's `Error` type. -/
inductive Error where
  | TypeMismatch (m : Marker)
  | InvalidMarkerRead (e : ReadError)
  | InvalidDataRead (e : ReadError)
  | LengthMismatch (n : Nat)
  | Uncategorized (msg : String)
  deriving DecidableEq

/-- `impl From<FixedValueReadError> for Error` (total). -/
def Error.ofFixedValueReadError : FixedValueReadError → Error
  | .UnexpectedEOF => .InvalidMarkerRead .UnexpectedEOF
  | .IoErr => .InvalidMarkerRead .IoErr
  | .TypeMismatch m => .TypeMismatch m

/-- `impl From<ValueReadError> for Error` (total). -/
def Error.ofValueReadError : ValueReadError → Error
  | .TypeMismatch m => .TypeMismatch m
  | .InvalidMarkerRead e => .InvalidMarkerRead e
  | .InvalidDataRead e => .InvalidDataRead e

/-- `impl From<DecodeStringError> for Error`: only the `InvalidMarkerRead`
variant is converted; every other variant is `unimplemented!()` in the
source, modelled by `none` (panic). -/
def Error.ofDecodeStringError : DecodeStringError → Option Error
  | .InvalidMarkerRead e => some (.InvalidMarkerRead e)
  | .InvalidDataRead _ => none
  | .TypeMismatch _ => none
  | .BufferSizeTooSmall _ => none
  | .InvalidDataCopy _ _ => none
  | .InvalidUtf8 _ _ => none

/-- Truncating `as` cast of an integer to a `w`-bit signed integer (the Rust
`v as isize` on a `w`-bit target). -/
def castToSigned (w : Nat) (v : Int) : Int :=
  toSigned w ((v % (2 ^ w : Int)).toNat)

/-- `Decoder::read_u64` of the adapter: the loose unsigned path, errors
converted by `From<ValueReadError>`. -/
def Decoder.read_u64 (rd : Bytes) : Except Error Nat × Bytes :=
  match read_u64_loosely rd with
  | (.ok v, r) => (.ok v, r)
  | (.error e, r) => (.error (Error.ofValueReadError e), r)

/-- `Decoder::read_usize`: `self.read_u64()` then `v as usize`, where `w` is
the bit width of `usize` on the target.  The cast truncates modulo `2 ^ w`
with no range check. -/
def Decoder.read_usize (w : Nat) (rd : Bytes) : Except Error Nat × Bytes :=
  match Decoder.read_u64 rd with
  | (.ok v, r) => (.ok (v % 2 ^ w), r)
  | (.error e, r) => (.error e, r)

/-- `Decoder::read_i64` of the adapter: the loose signed path. -/
def Decoder.read_i64 (rd : Bytes) : Except Error Int × Bytes :=
  match read_i64_loosely rd with
  | (.ok v, r) => (.ok v, r)
  | (.error e, r) => (.error (Error.ofValueReadError e), r)

/-- `Decoder::read_isize`: `self.read_i64()? as isize` on a `w`-bit target. -/
def Decoder.read_isize (w : Nat) (rd : Bytes) : Except Error Int × Bytes :=
  match Decoder.read_i64 rd with
  | (.ok v, r) => (.ok (castToSigned w v), r)
  | (.error e, r) => (.error e, r)

/-- `Decoder::read_tuple`: read the array-size header, invoke the caller's
closure only when it equals the expected `len`, otherwise fail with
`LengthMismatch` carrying the actual count. -/
def Decoder.read_tuple {T : Type} (len : Nat) (f : Bytes → Except Error T × Bytes)
    (rd : Bytes) : Except Error T × Bytes :=
  match read_array_size rd with
  | (.error e, r) => (.error (Error.ofValueReadError e), r)
  | (.ok actual, r) =>
    if len = actual then f r else (.error (.LengthMismatch actual), r)

/-- `Decoder::read_struct`: delegate to `read_tuple` with the field count. -/
def Decoder.read_struct {T : Type} (name_ : String) (len : Nat)
    (f : Bytes → Except Error T × Bytes) (rd : Bytes) : Except Error T × Bytes :=
  Decoder.read_tuple len f rd

/-- `Decoder::read_option`: optimistic probe.  Try the closure assuming a
present value; retry assuming absence exactly when it failed with
`TypeMismatch(Null)`; propagate any other error unchanged. -/
def Decoder.read_option {T : Type} (f : Bool → Bytes → Except Error T × Bytes)
    (rd : Bytes) : Except Error T × Bytes :=
  match f true rd with
  | (.ok val, r) => (.ok val, r)
  | (.error (.TypeMismatch .Null), r) => f false r
  | (.error e, r) => (.error e, r)

end serialize

/-! ### Spec-modelled encoders and marker classifiers

The encode path is an external collaborator (spec section 1); the byte shapes
below follow the wire-format table of spec section 6 and exist only to state
round-trip properties of the decoders. -/

/-- Big-endian fixed-width byte encoding.  Modelled from the spec: spec
section 6 fixes all multi-byte payloads as big-endian. -/
def beBytes : Nat → Nat → Bytes
  | 0, _ => []
  | n + 1, v => beBytes n (v / 256) ++ [v % 256]

/-- Truncation of an integer to its `w`-bit two's-complement bit pattern. -/
def toUnsigned (w : Nat) (v : Int) : Nat := (v % (2 ^ w : Int)).toNat

/-- Modelled from the spec: `nil` is the single byte `0xc0`. -/
def encode_nil : Bytes := [0xc0]

/-- Modelled from the spec: `false`/`true` are `0xc2`/`0xc3`. -/
def encode_bool : Bool → Bytes
  | false => [0xc2]
  | true => [0xc3]

/-- Modelled from the spec: a positive fixnum is its own byte (`0x00..0x7f`). -/
def encode_pfix (v : Nat) : Bytes := [v]

/-- Modelled from the spec: a negative fixnum `-32..-1` is its two's-complement
byte (`0xe0..0xff`). -/
def encode_nfix (v : Int) : Bytes := [(v + 256).toNat]

/-- Modelled from the spec: `uint8` marker `0xcc` then the byte. -/
def encode_u8 (v : Nat) : Bytes := 0xcc :: beBytes 1 v

/-- Modelled from the spec: `uint16` marker `0xcd` then 2 bytes big-endian. -/
def encode_u16 (v : Nat) : Bytes := 0xcd :: beBytes 2 v

/-- Modelled from the spec: `uint32` marker `0xce` then 4 bytes big-endian. -/
def encode_u32 (v : Nat) : Bytes := 0xce :: beBytes 4 v

/-- Modelled from the spec: `uint64` marker `0xcf` then 8 bytes big-endian. -/
def encode_u64 (v : Nat) : Bytes := 0xcf :: beBytes 8 v

/-- Modelled from the spec: `int8` marker `0xd0` then the value's byte. -/
def encode_i8 (v : Int) : Bytes := 0xd0 :: beBytes 1 (toUnsigned 8 v)

/-- Modelled from the spec: `int16` marker `0xd1`. -/
def encode_i16 (v : Int) : Bytes := 0xd1 :: beBytes 2 (toUnsigned 16 v)

/-- Modelled from the spec: `int32` marker `0xd2`. -/
def encode_i32 (v : Int) : Bytes := 0xd2 :: beBytes 4 (toUnsigned 32 v)

/-- Modelled from the spec: `int64` marker `0xd3`. -/
def encode_i64 (v : Int) : Bytes := 0xd3 :: beBytes 8 (toUnsigned 64 v)

/-- Modelled from the spec: `float32` marker `0xca` then the 4-byte
big-endian bit pattern. -/
def encode_f32 (bits : Nat) : Bytes := 0xca :: beBytes 4 bits

/-- Modelled from the spec: `float64` marker `0xcb` then the 8-byte
big-endian bit pattern. -/
def encode_f64 (bits : Nat) : Bytes := 0xcb :: beBytes 8 bits

/-- Markers encoding a signed integer (negative fixnum or `I8..I64`). -/
def Marker.isSignedInt : Marker → Bool
  | .NegativeFixnum _ => true
  | .I8 | .I16 | .I32 | .I64 => true
  | _ => false

/-- Markers encoding an unsigned integer (positive fixnum or `U8..U64`). -/
def Marker.isUnsignedInt : Marker → Bool
  | .PositiveFixnum _ => true
  | .U8 | .U16 | .U32 | .U64 => true
  | _ => false

/-! ### Arithmetic and stream-position lemmas -/

lemma beBytes_length (n v : Nat) : (beBytes n v).length = n := by
  induction n generalizing v with
  | zero => rfl
  | succ n ih => simp [beBytes, ih]

lemma beVal_beBytes (n v : Nat) (h : v < 256 ^ n) : beVal (beBytes n v) = v := by
  induction n generalizing v with
  | zero =>
    have : v = 0 := by simpa using h
    simp [this, beBytes, beVal]
  | succ n ih =>
    have hdiv : v / 256 < 256 ^ n := by
      rw [Nat.div_lt_iff_lt_mul (by norm_num)]
      calc v < 256 ^ (n + 1) := h
        _ = 256 ^ n * 256 := by ring
    have hv : beVal (beBytes n (v / 256)) = v / 256 := ih _ hdiv
    unfold beVal at hv ⊢
    rw [beBytes, List.foldl_append]
    simp only [List.foldl, hv]
    omega

lemma read_be_beBytes (n v : Nat) (rest : Bytes) (h : v < 256 ^ n) :
    read_be n (beBytes n v ++ rest) = (.ok v, rest) := by
  unfold read_be
  rw [if_pos (by simp [beBytes_length])]
  rw [List.take_left' (beBytes_length n v), List.drop_left' (beBytes_length n v),
    beVal_beBytes n v h]

lemma toSigned_toUnsigned (w : Nat) (hw : 0 < w) (v : Int)
    (h1 : -(2 ^ (w - 1)) ≤ v) (h2 : v < 2 ^ (w - 1)) :
    toSigned w (toUnsigned w v) = v := by
  obtain ⟨w', rfl⟩ : ∃ w', w = w' + 1 := ⟨w - 1, by omega⟩
  simp only [Nat.add_sub_cancel] at h1 h2
  unfold toSigned toUnsigned
  simp only [Nat.add_sub_cancel]
  have ha : (0 : Int) < 2 ^ w' := by positivity
  have hpow : (2 : Int) ^ (w' + 1) = 2 * 2 ^ w' := by ring
  have hcast : ((2 ^ w' : Nat) : Int) = 2 ^ w' := by push_cast; ring
  by_cases hv : 0 ≤ v
  · have hmod : v % 2 ^ (w' + 1) = v := Int.emod_eq_of_lt hv (by omega)
    rw [hmod, if_pos (by omega)]
    omega
  · have hmod : v % 2 ^ (w' + 1) = v + 2 ^ (w' + 1) := by
      have heq := Int.add_mul_emod_self_left (a := v) (b := 2 ^ (w' + 1)) (c := 1)
      rw [mul_one] at heq
      have h4 : (v + 2 ^ (w' + 1)) % 2 ^ (w' + 1) = v + 2 ^ (w' + 1) :=
        Int.emod_eq_of_lt (by omega) (by omega)
      rw [h4] at heq
      exact heq.symm
    rw [hmod, if_neg (by omega)]
    omega

lemma read_marker_drop (rd : Bytes) (res : Except MarkerReadError Marker) (r : Bytes)
    (h : read_marker rd = (res, r)) : ∃ k, k ≤ rd.length ∧ r = rd.drop k := by
  cases rd with
  | nil =>
    refine ⟨0, by simp, ?_⟩
    simp [read_marker] at h
    simp [h.2]
  | cons b rest =>
    refine ⟨1, by simp, ?_⟩
    simp [read_marker] at h
    simp [h.2]

lemma read_be_drop (n : Nat) (rd : Bytes) (res : Except ReadError Nat) (r : Bytes)
    (h : read_be n rd = (res, r)) : ∃ k, k ≤ rd.length ∧ r = rd.drop k := by
  unfold read_be at h
  split at h
  · exact ⟨n, by omega, by injection h with h1 h2; exact h2.symm⟩
  · exact ⟨rd.length, le_rfl, by injection h with h1 h2; simp [h2.symm]⟩

lemma read_data_u8_drop (rd : Bytes) (res : Except ValueReadError Nat) (r : Bytes)
    (h : read_data_u8 rd = (res, r)) : ∃ k, k ≤ rd.length ∧ r = rd.drop k := by
  unfold read_data_u8 at h
  rcases hbe : read_be 1 rd with ⟨res', r'⟩
  rw [hbe] at h
  rcases res' with e | v <;> simp at h <;>
    exact h.2 ▸ read_be_drop 1 rd _ r' hbe

lemma read_data_u16_drop (rd : Bytes) (res : Except ValueReadError Nat) (r : Bytes)
    (h : read_data_u16 rd = (res, r)) : ∃ k, k ≤ rd.length ∧ r = rd.drop k := by
  unfold read_data_u16 at h
  rcases hbe : read_be 2 rd with ⟨res', r'⟩
  rw [hbe] at h
  rcases res' with e | v <;> simp at h <;>
    exact h.2 ▸ read_be_drop 2 rd _ r' hbe

lemma read_data_u32_drop (rd : Bytes) (res : Except ValueReadError Nat) (r : Bytes)
    (h : read_data_u32 rd = (res, r)) : ∃ k, k ≤ rd.length ∧ r = rd.drop k := by
  unfold read_data_u32 at h
  rcases hbe : read_be 4 rd with ⟨res', r'⟩
  rw [hbe] at h
  rcases res' with e | v <;> simp at h <;>
    exact h.2 ▸ read_be_drop 4 rd _ r' hbe

/-! ### Marker-dispatch helper lemmas: each reader on a non-matching marker -/

lemma read_nil_mismatch (b : Nat) (rest : Bytes) (h : Marker.from_u8 b ≠ .Null) :
    read_nil (b :: rest) = (.error (.TypeMismatch (Marker.from_u8 b)), rest) := by
  cases hm : Marker.from_u8 b <;>
    first
      | exact absurd hm h
      | simp [read_nil, read_marker, hm]

lemma read_bool_mismatch (b : Nat) (rest : Bytes) (ht : Marker.from_u8 b ≠ .True)
    (hf : Marker.from_u8 b ≠ .False) :
    read_bool (b :: rest) = (.error (.TypeMismatch (Marker.from_u8 b)), rest) := by
  cases hm : Marker.from_u8 b <;>
    first
      | exact absurd hm ht
      | exact absurd hm hf
      | simp [read_bool, read_marker, hm]

lemma read_pfix_mismatch (b : Nat) (rest : Bytes)
    (h : ∀ v, Marker.from_u8 b ≠ .PositiveFixnum v) :
    read_pfix (b :: rest) = (.error (.TypeMismatch (Marker.from_u8 b)), rest) := by
  cases hm : Marker.from_u8 b <;>
    first
      | exact absurd hm (h _)
      | simp [read_pfix, read_marker, hm]

lemma read_nfix_mismatch (b : Nat) (rest : Bytes)
    (h : ∀ v, Marker.from_u8 b ≠ .NegativeFixnum v) :
    read_nfix (b :: rest) = (.error (.TypeMismatch (Marker.from_u8 b)), rest) := by
  cases hm : Marker.from_u8 b <;>
    first
      | exact absurd hm (h _)
      | simp [read_nfix, read_marker, hm]

lemma read_u8_mismatch (b : Nat) (rest : Bytes) (h : Marker.from_u8 b ≠ .U8) :
    read_u8 (b :: rest) = (.error (.TypeMismatch (Marker.from_u8 b)), rest) := by
  cases hm : Marker.from_u8 b <;>
    first
      | exact absurd hm h
      | simp [read_u8, read_marker, hm]

lemma read_u16_mismatch (b : Nat) (rest : Bytes) (h : Marker.from_u8 b ≠ .U16) :
    read_u16 (b :: rest) = (.error (.TypeMismatch (Marker.from_u8 b)), rest) := by
  cases hm : Marker.from_u8 b <;>
    first
      | exact absurd hm h
      | simp [read_u16, read_marker, hm]

lemma read_u32_mismatch (b : Nat) (rest : Bytes) (h : Marker.from_u8 b ≠ .U32) :
    read_u32 (b :: rest) = (.error (.TypeMismatch (Marker.from_u8 b)), rest) := by
  cases hm : Marker.from_u8 b <;>
    first
      | exact absurd hm h
      | simp [read_u32, read_marker, hm]

lemma read_u64_mismatch (b : Nat) (rest : Bytes) (h : Marker.from_u8 b ≠ .U64) :
    read_u64 (b :: rest) = (.error (.TypeMismatch (Marker.from_u8 b)), rest) := by
  cases hm : Marker.from_u8 b <;>
    first
      | exact absurd hm h
      | simp [read_u64, read_marker, hm]

lemma read_i8_mismatch (b : Nat) (rest : Bytes) (h : Marker.from_u8 b ≠ .I8) :
    read_i8 (b :: rest) = (.error (.TypeMismatch (Marker.from_u8 b)), rest) := by
  cases hm : Marker.from_u8 b <;>
    first
      | exact absurd hm h
      | simp [read_i8, read_marker, hm]

lemma read_i16_mismatch (b : Nat) (rest : Bytes) (h : Marker.from_u8 b ≠ .I16) :
    read_i16 (b :: rest) = (.error (.TypeMismatch (Marker.from_u8 b)), rest) := by
  cases hm : Marker.from_u8 b <;>
    first
      | exact absurd hm h
      | simp [read_i16, read_marker, hm]

lemma read_i32_mismatch (b : Nat) (rest : Bytes) (h : Marker.from_u8 b ≠ .I32) :
    read_i32 (b :: rest) = (.error (.TypeMismatch (Marker.from_u8 b)), rest) := by
  cases hm : Marker.from_u8 b <;>
    first
      | exact absurd hm h
      | simp [read_i32, read_marker, hm]

lemma read_i64_mismatch (b : Nat) (rest : Bytes) (h : Marker.from_u8 b ≠ .I64) :
    read_i64 (b :: rest) = (.error (.TypeMismatch (Marker.from_u8 b)), rest) := by
  cases hm : Marker.from_u8 b <;>
    first
      | exact absurd hm h
      | simp [read_i64, read_marker, hm]

lemma read_f32_mismatch (b : Nat) (rest : Bytes) (h : Marker.from_u8 b ≠ .F32) :
    read_f32 (b :: rest) = (.error (.TypeMismatch (Marker.from_u8 b)), rest) := by
  cases hm : Marker.from_u8 b <;>
    first
      | exact absurd hm h
      | simp [read_f32, read_marker, hm]

lemma read_f64_mismatch (b : Nat) (rest : Bytes) (h : Marker.from_u8 b ≠ .F64) :
    read_f64 (b :: rest) = (.error (.TypeMismatch (Marker.from_u8 b)), rest) := by
  cases hm : Marker.from_u8 b <;>
    first
      | exact absurd hm h
      | simp [read_f64, read_marker, hm]

lemma read_u8_loosely_mismatch (b : Nat) (rest : Bytes)
    (hp : ∀ v, Marker.from_u8 b ≠ .PositiveFixnum v) (h8 : Marker.from_u8 b ≠ .U8) :
    read_u8_loosely (b :: rest) = (.error (.TypeMismatch (Marker.from_u8 b)), rest) := by
  cases hm : Marker.from_u8 b <;>
    first
      | exact absurd hm (hp _)
      | exact absurd hm h8
      | simp [read_u8_loosely, read_marker, hm]

lemma read_u16_loosely_mismatch (b : Nat) (rest : Bytes)
    (hp : ∀ v, Marker.from_u8 b ≠ .PositiveFixnum v) (h8 : Marker.from_u8 b ≠ .U8)
    (h16 : Marker.from_u8 b ≠ .U16) :
    read_u16_loosely (b :: rest) = (.error (.TypeMismatch (Marker.from_u8 b)), rest) := by
  cases hm : Marker.from_u8 b <;>
    first
      | exact absurd hm (hp _)
      | exact absurd hm h8
      | exact absurd hm h16
      | simp [read_u16_loosely, read_marker, hm]

lemma read_u32_loosely_mismatch (b : Nat) (rest : Bytes)
    (hp : ∀ v, Marker.from_u8 b ≠ .PositiveFixnum v) (h8 : Marker.from_u8 b ≠ .U8)
    (h16 : Marker.from_u8 b ≠ .U16) (h32 : Marker.from_u8 b ≠ .U32) :
    read_u32_loosely (b :: rest) = (.error (.TypeMismatch (Marker.from_u8 b)), rest) := by
  cases hm : Marker.from_u8 b <;>
    first
      | exact absurd hm (hp _)
      | exact absurd hm h8
      | exact absurd hm h16
      | exact absurd hm h32
      | simp [read_u32_loosely, read_marker, hm]

lemma read_u64_loosely_mismatch (b : Nat) (rest : Bytes)
    (hp : ∀ v, Marker.from_u8 b ≠ .PositiveFixnum v) (h8 : Marker.from_u8 b ≠ .U8)
    (h16 : Marker.from_u8 b ≠ .U16) (h32 : Marker.from_u8 b ≠ .U32)
    (h64 : Marker.from_u8 b ≠ .U64) :
    read_u64_loosely (b :: rest) = (.error (.TypeMismatch (Marker.from_u8 b)), rest) := by
  cases hm : Marker.from_u8 b <;>
    first
      | exact absurd hm (hp _)
      | exact absurd hm h8
      | exact absurd hm h16
      | exact absurd hm h32
      | exact absurd hm h64
      | simp [read_u64_loosely, read_marker, hm]

lemma read_i8_loosely_mismatch (b : Nat) (rest : Bytes)
    (hn : ∀ v, Marker.from_u8 b ≠ .NegativeFixnum v) (h8 : Marker.from_u8 b ≠ .I8) :
    read_i8_loosely (b :: rest) = (.error (.TypeMismatch (Marker.from_u8 b)), rest) := by
  cases hm : Marker.from_u8 b <;>
    first
      | exact absurd hm (hn _)
      | exact absurd hm h8
      | simp [read_i8_loosely, read_marker, hm]

lemma read_i16_loosely_mismatch (b : Nat) (rest : Bytes)
    (hn : ∀ v, Marker.from_u8 b ≠ .NegativeFixnum v) (h8 : Marker.from_u8 b ≠ .I8)
    (h16 : Marker.from_u8 b ≠ .I16) :
    read_i16_loosely (b :: rest) = (.error (.TypeMismatch (Marker.from_u8 b)), rest) := by
  cases hm : Marker.from_u8 b <;>
    first
      | exact absurd hm (hn _)
      | exact absurd hm h8
      | exact absurd hm h16
      | simp [read_i16_loosely, read_marker, hm]

lemma read_i32_loosely_mismatch (b : Nat) (rest : Bytes)
    (hn : ∀ v, Marker.from_u8 b ≠ .NegativeFixnum v) (h8 : Marker.from_u8 b ≠ .I8)
    (h16 : Marker.from_u8 b ≠ .I16) (h32 : Marker.from_u8 b ≠ .I32) :
    read_i32_loosely (b :: rest) = (.error (.TypeMismatch (Marker.from_u8 b)), rest) := by
  cases hm : Marker.from_u8 b <;>
    first
      | exact absurd hm (hn _)
      | exact absurd hm h8
      | exact absurd hm h16
      | exact absurd hm h32
      | simp [read_i32_loosely, read_marker, hm]

lemma read_i64_loosely_mismatch (b : Nat) (rest : Bytes)
    (hn : ∀ v, Marker.from_u8 b ≠ .NegativeFixnum v) (h8 : Marker.from_u8 b ≠ .I8)
    (h16 : Marker.from_u8 b ≠ .I16) (h32 : Marker.from_u8 b ≠ .I32)
    (h64 : Marker.from_u8 b ≠ .I64) :
    read_i64_loosely (b :: rest) = (.error (.TypeMismatch (Marker.from_u8 b)), rest) := by
  cases hm : Marker.from_u8 b <;>
    first
      | exact absurd hm (hn _)
      | exact absurd hm h8
      | exact absurd hm h16
      | exact absurd hm h32
      | exact absurd hm h64
      | simp [read_i64_loosely, read_marker, hm]

lemma drop_comp (rd r0 r : Bytes) (k0 : Nat) (hk0 : k0 ≤ rd.length)
    (hr0 : r0 = rd.drop k0) (h : ∃ k, k ≤ r0.length ∧ r = r0.drop k) :
    ∃ k, k ≤ rd.length ∧ r = rd.drop k := by
  obtain ⟨k1, hk1, hr⟩ := h
  subst hr0
  refine ⟨k0 + k1, ?_, ?_⟩
  · rw [List.length_drop] at hk1; omega
  · rw [hr, List.drop_drop]

lemma read_bin_len_drop (rd : Bytes) (res : Except ValueReadError Nat) (r : Bytes)
    (h : read_bin_len rd = (res, r)) : ∃ k, k ≤ rd.length ∧ r = rd.drop k := by
  unfold read_bin_len at h
  rcases hm : read_marker rd with ⟨mres, r0⟩
  rw [hm] at h
  obtain ⟨k0, hk0, hr0⟩ := read_marker_drop rd mres r0 hm
  rcases mres with e | m
  · simp at h
    exact h.2 ▸ ⟨k0, hk0, hr0⟩
  · cases m <;>
      first
        | (simp at h; exact h.2 ▸ ⟨k0, hk0, hr0⟩)
        | exact drop_comp rd r0 r k0 hk0 hr0 (read_data_u8_drop r0 _ _ h)
        | exact drop_comp rd r0 r k0 hk0 hr0 (read_data_u16_drop r0 _ _ h)
        | exact drop_comp rd r0 r k0 hk0 hr0 (read_data_u32_drop r0 _ _ h)

lemma read_str_len_drop (rd : Bytes) (res : Except ValueReadError Nat) (r : Bytes)
    (h : read_str_len rd = (res, r)) : ∃ k, k ≤ rd.length ∧ r = rd.drop k := by
  unfold read_str_len at h
  rcases hm : read_marker rd with ⟨mres, r0⟩
  rw [hm] at h
  obtain ⟨k0, hk0, hr0⟩ := read_marker_drop rd mres r0 hm
  rcases mres with e | m
  · simp at h
    exact h.2 ▸ ⟨k0, hk0, hr0⟩
  · cases m <;>
      first
        | (simp at h; exact h.2 ▸ ⟨k0, hk0, hr0⟩)
        | exact drop_comp rd r0 r k0 hk0 hr0 (read_data_u8_drop r0 _ _ h)
        | exact drop_comp rd r0 r k0 hk0 hr0 (read_data_u16_drop r0 _ _ h)
        | exact drop_comp rd r0 r k0 hk0 hr0 (read_data_u32_drop r0 _ _ h)

/-! ### Claim theorems -/

/-- C1 counterexample: the claim says a slice shorter than the declared
string length makes `read_str_ref` return an end-of-input error; on the
input `[0xa1]` (fixstr of length 1 with no payload byte) the unchecked
slice indexing `&rd[start .. start + len]` panics instead — `none`, which
is not `some` of any returned error or payload. -/
theorem C1_str_ref_short_input_panics : read_str_ref [0xa1] = none := rfl

/-- C1 (amended): after a successful length header, `read_bin_borrow`
returns the sub-slice of the input spanning exactly the declared payload
when the remaining slice is long enough and fails with an end-of-input
error otherwise; `read_str_ref` returns the payload sub-slice when the
remaining slice is long enough but panics (`none`), with no bounds check,
when the remaining slice is shorter than declared. -/
theorem C1_zero_copy_payload_readers (rd : Bytes) (len : Nat) (r : Bytes) :
    (read_bin_len rd = (Except.ok len, r) →
      (len ≤ r.length →
        read_bin_borrow rd = Except.ok (r.take len) ∧ (r.take len).length = len) ∧
      (r.length < len →
        read_bin_borrow rd =
          Except.error (ValueReadError.InvalidDataRead ReadError.UnexpectedEOF))) ∧
    (read_str_len rd = (Except.ok len, r) →
      (len ≤ r.length →
        read_str_ref rd = some (Except.ok (r.take len)) ∧ (r.take len).length = len) ∧
      (r.length < len → read_str_ref rd = none)) := by
  constructor
  · intro h
    obtain ⟨k, hk, hr⟩ := read_bin_len_drop rd _ _ h
    have hlen : r.length = rd.length - k := by rw [hr, List.length_drop]
    have hpos : rd.length - r.length = k := by omega
    constructor
    · intro hle
      unfold read_bin_borrow
      rw [h]
      dsimp only
      rw [hpos, if_neg (by omega), ← hr]
      exact ⟨rfl, by rw [List.length_take]; omega⟩
    · intro hlt
      unfold read_bin_borrow
      rw [h]
      dsimp only
      rw [hpos, if_pos (by omega)]
  · intro h
    obtain ⟨k, hk, hr⟩ := read_str_len_drop rd _ _ h
    have hlen : r.length = rd.length - k := by rw [hr, List.length_drop]
    have hpos : rd.length - r.length = k := by omega
    constructor
    · intro hle
      unfold read_str_ref
      rw [h]
      dsimp only
      rw [hpos, if_pos (by omega), ← hr]
      exact ⟨rfl, by rw [List.length_take]; omega⟩
    · intro hlt
      unfold read_str_ref
      rw [h]
      dsimp only
      rw [hpos, if_neg (by omega)]

/-- C1 witness: on `[0xc4, 2, 7]` (bin8 declaring 2 payload bytes with only
one present) `read_bin_borrow` fails with end-of-input, and on
`[0xa1, 65]` (fixstr of length 1 with its payload byte) `read_str_ref`
returns the payload sub-slice. -/
theorem C1_zero_copy_payload_readers_witness :
    read_bin_borrow [0xc4, 2, 7] =
      Except.error (ValueReadError.InvalidDataRead ReadError.UnexpectedEOF) ∧
    read_str_ref [0xa1, 65] = some (Except.ok [65]) :=
  ⟨((C1_zero_copy_payload_readers [0xc4, 2, 7] 2 [7]).1 rfl).2 (by decide),
   (((C1_zero_copy_payload_readers [0xa1, 65] 1 [65]).2 rfl).1 (by decide)).1⟩

/-- C2 (code bug evidence): on the input `[0xc0]`, whose marker `Null` is
not the expected fixed-ext marker, `read_fixext1` and `read_fixext2` return
the type-mismatch error carrying that marker as the claim states, but
`read_fixext4`, `read_fixext8` and `read_fixext16` hit `unimplemented!()`
and panic (`none`). -/
theorem C2_fixext_mismatch_behaviour :
    read_fixext1 [0xc0] =
      (Except.error (ValueReadError.TypeMismatch Marker.Null), []) ∧
    read_fixext2 [0xc0] =
      (Except.error (ValueReadError.TypeMismatch Marker.Null), []) ∧
    read_fixext4 [0xc0] = none ∧
    read_fixext8 [0xc0] = none ∧
    read_fixext16 [0xc0] = none :=
  ⟨rfl, rfl, rfl, rfl, rfl⟩

/-- C3 (code bug evidence): converting `DecodeStringError` into the
generic-adapter `Error` succeeds only for the `InvalidMarkerRead` variant;
every other variant (data-read, type-mismatch, buffer-too-small, partial
copy, invalid UTF-8) hits `unimplemented!()` and panics (`none`), so the
conversion is not total. -/
theorem C3_decode_string_error_conversion_partial :
    (∀ e, serialize.Error.ofDecodeStringError (.InvalidMarkerRead e) =
      some (.InvalidMarkerRead e)) ∧
    (∀ e, serialize.Error.ofDecodeStringError (.InvalidDataRead e) = none) ∧
    (∀ m, serialize.Error.ofDecodeStringError (.TypeMismatch m) = none) ∧
    (∀ n, serialize.Error.ofDecodeStringError (.BufferSizeTooSmall n) = none) ∧
    (∀ p e, serialize.Error.ofDecodeStringError (.InvalidDataCopy p e) = none) ∧
    (∀ bf e, serialize.Error.ofDecodeStringError (.InvalidUtf8 bf e) = none) :=
  ⟨fun _ => rfl, fun _ => rfl, fun _ => rfl, fun _ => rfl,
   fun _ _ => rfl, fun _ _ => rfl⟩

/-- C6: `read_option` probes optimistically.  A successful first invocation
of the visitor closure (with `true`) is returned directly; a failure with
`TypeMismatch(Null)` — and only that error — triggers the second invocation
(with `false`), whose result is returned; any other error propagates
unchanged. -/
theorem C6_read_option_optimistic_probe {T : Type}
    (f : Bool → Bytes → Except serialize.Error T × Bytes) (rd : Bytes) :
    (∀ v r, f true rd = (.ok v, r) →
      serialize.Decoder.read_option f rd = (.ok v, r)) ∧
    (∀ r, f true rd = (.error (.TypeMismatch .Null), r) →
      serialize.Decoder.read_option f rd = f false r) ∧
    (∀ e r, e ≠ serialize.Error.TypeMismatch Marker.Null →
      f true rd = (.error e, r) →
      serialize.Decoder.read_option f rd = (.error e, r)) := by
  refine ⟨?_, ?_, ?_⟩
  · intro v r hf
    unfold serialize.Decoder.read_option
    rw [hf]
  · intro r hf
    unfold serialize.Decoder.read_option
    rw [hf]
  · intro e r hne hf
    unfold serialize.Decoder.read_option
    rw [hf]
    rcases e with m | e' | e' | n | s
    · cases m <;> first | exact absurd rfl hne | rfl
    all_goals rfl

/-- C6 witness: with a closure that fails with `TypeMismatch(Null)` on the
optimistic pass and yields `7` on the absent pass, `read_option` returns
`7`. -/
theorem C6_read_option_optimistic_probe_witness :
    serialize.Decoder.read_option
      (fun present s =>
        if present
        then ((Except.error (serialize.Error.TypeMismatch Marker.Null) :
                Except serialize.Error Nat), s)
        else (Except.ok 7, s)) [] = (Except.ok 7, []) :=
  (C6_read_option_optimistic_probe
    (fun present s =>
      if present
      then ((Except.error (serialize.Error.TypeMismatch Marker.Null) :
              Except serialize.Error Nat), s)
      else (Except.ok 7, s)) []).2.1 [] rfl

/-- C7: `read_struct` is exactly `read_tuple` at the same expected count, and
`read_tuple` reads the array-size header, invoking the caller's closure only
when the decoded size equals the expected count and failing with
`LengthMismatch` carrying the actual decoded count otherwise. -/
theorem C7_struct_as_tuple_arity (T : Type) (name_ : String) (len : Nat)
    (f : Bytes → Except serialize.Error T × Bytes) (rd : Bytes) :
    serialize.Decoder.read_struct name_ len f rd =
      serialize.Decoder.read_tuple len f rd ∧
    (∀ actual r, read_array_size rd = (.ok actual, r) →
      (len = actual → serialize.Decoder.read_tuple len f rd = f r) ∧
      (len ≠ actual → serialize.Decoder.read_tuple len f rd =
        (.error (.LengthMismatch actual), r))) := by
  refine ⟨rfl, ?_⟩
  intro actual r h
  unfold serialize.Decoder.read_tuple
  rw [h]
  dsimp only
  constructor
  · intro he
    rw [if_pos he]
  · intro hne
    rw [if_neg hne]

/-- C7 witness: an array-size header of 3 against an expected tuple arity of
2 fails with `LengthMismatch 3`. -/
theorem C7_struct_as_tuple_arity_witness :
    serialize.Decoder.read_tuple 2
      (fun s => ((Except.ok 0 : Except serialize.Error Nat), s)) [0x93] =
      (Except.error (serialize.Error.LengthMismatch 3), []) :=
  ((C7_struct_as_tuple_arity Nat "" 2
    (fun s => ((Except.ok 0 : Except serialize.Error Nat), s)) [0x93]).2
    3 [] rfl).2 (by decide)

/-- C10: the adapter's `read_usize` decodes through the loose `u64` path and
truncates the decoded value modulo `2 ^ w` (the `usize` width) with no range
check, and `read_isize` does the same through the loose `i64` path with a
truncating signed cast. -/
theorem C10_usize_isize_unchecked_cast (w : Nat) (rd : Bytes) :
    (∀ v r, read_u64_loosely rd = (Except.ok v, r) →
      serialize.Decoder.read_u64 rd = (.ok v, r)) ∧
    (∀ v r, serialize.Decoder.read_u64 rd = (.ok v, r) →
      serialize.Decoder.read_usize w rd = (.ok (v % 2 ^ w), r)) ∧
    (∀ e r, serialize.Decoder.read_u64 rd = (.error e, r) →
      serialize.Decoder.read_usize w rd = (.error e, r)) ∧
    (∀ v r, read_i64_loosely rd = (Except.ok v, r) →
      serialize.Decoder.read_i64 rd = (.ok v, r)) ∧
    (∀ v r, serialize.Decoder.read_i64 rd = (.ok v, r) →
      serialize.Decoder.read_isize w rd = (.ok (serialize.castToSigned w v), r)) ∧
    (∀ e r, serialize.Decoder.read_i64 rd = (.error e, r) →
      serialize.Decoder.read_isize w rd = (.error e, r)) := by
  refine ⟨?_, ?_, ?_, ?_, ?_, ?_⟩
  · intro v r hf
    unfold serialize.Decoder.read_u64
    rw [hf]
  · intro v r hf
    unfold serialize.Decoder.read_usize
    rw [hf]
  · intro e r hf
    unfold serialize.Decoder.read_usize
    rw [hf]
  · intro v r hf
    unfold serialize.Decoder.read_i64
    rw [hf]
  · intro v r hf
    unfold serialize.Decoder.read_isize
    rw [hf]
  · intro e r hf
    unfold serialize.Decoder.read_isize
    rw [hf]

/-- C10 witness: on a 32-bit target, a wire `u64` equal to `2 ^ 32` decodes
through `read_usize` to `0` — silently reduced modulo `2 ^ 32`, not
rejected. -/
theorem C10_usize_isize_unchecked_cast_witness :
    serialize.Decoder.read_usize 32 [0xcf, 0, 0, 0, 1, 0, 0, 0, 0] =
      (Except.ok 0, []) :=
  (C10_usize_isize_unchecked_cast 32 [0xcf, 0, 0, 0, 1, 0, 0, 0, 0]).2.1
    (2 ^ 32) [] (by rfl)

/-- C9 counterexample: the claim names `0xd4` as the fixext4 marker, but by
the wire table `0xd4` is fixext1 (fixext4 is `0xd6`), so on `[0xd4, 7]`
`read_ext_meta` returns the descriptor with `size = 1`, not the claimed
`size = 4` descriptor. -/
theorem C9_fixext_marker_byte_cex :
    read_ext_meta [0xd4, 7] = some (Except.ok ⟨7, 1⟩, []) ∧
    (⟨7, 1⟩ : ExtMeta) ≠ ⟨7, 4⟩ := ⟨rfl, by decide⟩

/-- C9 (amended): for every type-id byte `t`, `read_ext_meta` on the fixext4
encoding — marker `0xd6`, then `t` — and on the ext8 encoding with length
field 4 — marker `0xc7`, length byte 4, then `t` — returns the identical
descriptor with `typeid = t` (as a signed byte) and `size = 4`, leaving the
4-byte payload unread. -/
theorem C9_ext_meta_unification (t : Nat) (payload : Bytes) (ht : t < 256)
    (hp : payload.length = 4) :
    read_ext_meta (0xd6 :: t :: payload) =
      some (Except.ok ⟨toSigned 8 t, 4⟩, payload) ∧
    read_ext_meta (0xc7 :: 4 :: t :: payload) =
      some (Except.ok ⟨toSigned 8 t, 4⟩, payload) := by
  constructor <;>
    simp [read_ext_meta, read_marker, Marker.from_u8, read_ext_meta_tail,
      read_data_i8, read_data_u8, read_be, beVal]

/-- C9 witness: type-id byte `0xff` (signed value `-1`) with a 4-byte
payload decodes identically through both encodings. -/
theorem C9_ext_meta_unification_witness :
    read_ext_meta [0xd6, 0xff, 1, 2, 3, 4] =
      some (Except.ok ⟨-1, 4⟩, [1, 2, 3, 4]) ∧
    read_ext_meta [0xc7, 4, 0xff, 1, 2, 3, 4] =
      some (Except.ok ⟨-1, 4⟩, [1, 2, 3, 4]) :=
  C9_ext_meta_unification 0xff [1, 2, 3, 4] (by decide) rfl

/-- C5: after a successful string-length header leaving `r` in the reader,
`read_str` fails with `BufferSizeTooSmall` carrying the declared length when
the caller's buffer is shorter, with the payload still unconsumed; when
fewer payload bytes than declared are available it fails with
`InvalidDataCopy` carrying exactly the bytes actually copied (all of `r`)
and an end-of-input cause; when the declared count copies but is not valid
UTF-8 it fails with `InvalidUtf8` carrying the copied bytes and the
validation error; it returns text only when the full count copied and
validated. -/
theorem C5_read_str_error_paths (rd buf : Bytes) (len : Nat) (r : Bytes)
    (h : read_str_len rd = (Except.ok len, r)) :
    (buf.length < len →
      read_str rd buf = (.error (.BufferSizeTooSmall len), r)) ∧
    (len ≤ buf.length → r.length < len →
      read_str rd buf =
        (.error (.InvalidDataCopy r ReadError.UnexpectedEOF), [])) ∧
    (len ≤ buf.length → len ≤ r.length →
      ∀ e, from_utf8 (r.take len) = .error e →
        read_str rd buf = (.error (.InvalidUtf8 (r.take len) e), r.drop len)) ∧
    (len ≤ buf.length → len ≤ r.length →
      from_utf8 (r.take len) = .ok (r.take len) →
        read_str rd buf = (.ok (r.take len), r.drop len)) := by
  unfold read_str
  rw [h]
  dsimp only
  refine ⟨?_, ?_, ?_, ?_⟩
  · intro hb
    rw [if_pos hb]
  · intro hb hr
    rw [if_neg (by omega)]
    unfold read_str_data
    rw [List.take_of_length_le (le_of_lt hr), List.drop_eq_nil_of_le (le_of_lt hr)]
    simp only [if_neg (by omega : ¬ r.length = len)]
  · intro hb hr e he
    rw [if_neg (by omega)]
    unfold read_str_data
    have hl : (r.take len).length = len := by rw [List.length_take]; omega
    simp only [hl, if_pos rfl, he]
    simp
  · intro hb hr hok
    rw [if_neg (by omega)]
    unfold read_str_data
    have hl : (r.take len).length = len := by rw [List.length_take]; omega
    simp only [hl, if_pos rfl, hok]
    simp

/-- C5 witness: `[0xa2, 0xc3, 0x28]` declares a 2-byte string whose payload
`[0xc3, 0x28]` is invalid UTF-8 (`0x28` is no continuation byte), so with a
large-enough buffer `read_str` fails with `InvalidUtf8` carrying those bytes
and the validation error at position 0. -/
theorem C5_read_str_error_paths_witness :
    read_str [0xa2, 0xc3, 0x28] [0, 0] =
      (Except.error (DecodeStringError.InvalidUtf8 [0xc3, 0x28] ⟨0⟩), []) :=
  (C5_read_str_error_paths [0xa2, 0xc3, 0x28] [0, 0] 2 [0xc3, 0x28] rfl).2.2.1
    (by decide) (by decide) ⟨0⟩ rfl

/-- C4: the loose readers preserve signedness exactly.  Every unsigned loose
reader rejects every signed-integer marker as a type-mismatch; every signed
loose reader rejects every unsigned-integer marker; positive (negative)
fixnums are accepted at every unsigned (signed) width; a `U`/`I` marker is
accepted, with the numerically widened value (in this model, equality with
the corresponding data read), exactly by the loose readers of width at least
its own and rejected by the narrower ones; markers of non-integer types are
rejected by all eight. -/
theorem C4_loose_readers_signedness (b : Nat) (rest : Bytes) :
    (Marker.isSignedInt (Marker.from_u8 b) = true →
      read_u8_loosely (b :: rest) =
        (.error (.TypeMismatch (Marker.from_u8 b)), rest) ∧
      read_u16_loosely (b :: rest) =
        (.error (.TypeMismatch (Marker.from_u8 b)), rest) ∧
      read_u32_loosely (b :: rest) =
        (.error (.TypeMismatch (Marker.from_u8 b)), rest) ∧
      read_u64_loosely (b :: rest) =
        (.error (.TypeMismatch (Marker.from_u8 b)), rest)) ∧
    (Marker.isUnsignedInt (Marker.from_u8 b) = true →
      read_i8_loosely (b :: rest) =
        (.error (.TypeMismatch (Marker.from_u8 b)), rest) ∧
      read_i16_loosely (b :: rest) =
        (.error (.TypeMismatch (Marker.from_u8 b)), rest) ∧
      read_i32_loosely (b :: rest) =
        (.error (.TypeMismatch (Marker.from_u8 b)), rest) ∧
      read_i64_loosely (b :: rest) =
        (.error (.TypeMismatch (Marker.from_u8 b)), rest)) ∧
    (∀ v, Marker.from_u8 b = .PositiveFixnum v →
      read_u8_loosely (b :: rest) = (.ok v, rest) ∧
      read_u16_loosely (b :: rest) = (.ok v, rest) ∧
      read_u32_loosely (b :: rest) = (.ok v, rest) ∧
      read_u64_loosely (b :: rest) = (.ok v, rest)) ∧
    (Marker.from_u8 b = .U8 →
      read_u8_loosely (b :: rest) = read_data_u8 rest ∧
      read_u16_loosely (b :: rest) = read_data_u8 rest ∧
      read_u32_loosely (b :: rest) = read_data_u8 rest ∧
      read_u64_loosely (b :: rest) = read_data_u8 rest) ∧
    (Marker.from_u8 b = .U16 →
      read_u8_loosely (b :: rest) = (.error (.TypeMismatch .U16), rest) ∧
      read_u16_loosely (b :: rest) = read_data_u16 rest ∧
      read_u32_loosely (b :: rest) = read_data_u16 rest ∧
      read_u64_loosely (b :: rest) = read_data_u16 rest) ∧
    (Marker.from_u8 b = .U32 →
      read_u8_loosely (b :: rest) = (.error (.TypeMismatch .U32), rest) ∧
      read_u16_loosely (b :: rest) = (.error (.TypeMismatch .U32), rest) ∧
      read_u32_loosely (b :: rest) = read_data_u32 rest ∧
      read_u64_loosely (b :: rest) = read_data_u32 rest) ∧
    (Marker.from_u8 b = .U64 →
      read_u8_loosely (b :: rest) = (.error (.TypeMismatch .U64), rest) ∧
      read_u16_loosely (b :: rest) = (.error (.TypeMismatch .U64), rest) ∧
      read_u32_loosely (b :: rest) = (.error (.TypeMismatch .U64), rest) ∧
      read_u64_loosely (b :: rest) = read_data_u64 rest) ∧
    (∀ v, Marker.from_u8 b = .NegativeFixnum v →
      read_i8_loosely (b :: rest) = (.ok v, rest) ∧
      read_i16_loosely (b :: rest) = (.ok v, rest) ∧
      read_i32_loosely (b :: rest) = (.ok v, rest) ∧
      read_i64_loosely (b :: rest) = (.ok v, rest)) ∧
    (Marker.from_u8 b = .I8 →
      read_i8_loosely (b :: rest) = read_data_i8 rest ∧
      read_i16_loosely (b :: rest) = read_data_i8 rest ∧
      read_i32_loosely (b :: rest) = read_data_i8 rest ∧
      read_i64_loosely (b :: rest) = read_data_i8 rest) ∧
    (Marker.from_u8 b = .I16 →
      read_i8_loosely (b :: rest) = (.error (.TypeMismatch .I16), rest) ∧
      read_i16_loosely (b :: rest) = read_data_i16 rest ∧
      read_i32_loosely (b :: rest) = read_data_i16 rest ∧
      read_i64_loosely (b :: rest) = read_data_i16 rest) ∧
    (Marker.from_u8 b = .I32 →
      read_i8_loosely (b :: rest) = (.error (.TypeMismatch .I32), rest) ∧
      read_i16_loosely (b :: rest) = (.error (.TypeMismatch .I32), rest) ∧
      read_i32_loosely (b :: rest) = read_data_i32 rest ∧
      read_i64_loosely (b :: rest) = read_data_i32 rest) ∧
    (Marker.from_u8 b = .I64 →
      read_i8_loosely (b :: rest) = (.error (.TypeMismatch .I64), rest) ∧
      read_i16_loosely (b :: rest) = (.error (.TypeMismatch .I64), rest) ∧
      read_i32_loosely (b :: rest) = (.error (.TypeMismatch .I64), rest) ∧
      read_i64_loosely (b :: rest) = read_data_i64 rest) ∧
    (Marker.isSignedInt (Marker.from_u8 b) = false →
      Marker.isUnsignedInt (Marker.from_u8 b) = false →
      read_u8_loosely (b :: rest) =
        (.error (.TypeMismatch (Marker.from_u8 b)), rest) ∧
      read_u16_loosely (b :: rest) =
        (.error (.TypeMismatch (Marker.from_u8 b)), rest) ∧
      read_u32_loosely (b :: rest) =
        (.error (.TypeMismatch (Marker.from_u8 b)), rest) ∧
      read_u64_loosely (b :: rest) =
        (.error (.TypeMismatch (Marker.from_u8 b)), rest) ∧
      read_i8_loosely (b :: rest) =
        (.error (.TypeMismatch (Marker.from_u8 b)), rest) ∧
      read_i16_loosely (b :: rest) =
        (.error (.TypeMismatch (Marker.from_u8 b)), rest) ∧
      read_i32_loosely (b :: rest) =
        (.error (.TypeMismatch (Marker.from_u8 b)), rest) ∧
      read_i64_loosely (b :: rest) =
        (.error (.TypeMismatch (Marker.from_u8 b)), rest)) := by
  refine ⟨?_, ?_, ?_, ?_, ?_, ?_, ?_, ?_, ?_, ?_, ?_, ?_, ?_⟩
  · intro h
    have hp : ∀ v, Marker.from_u8 b ≠ .PositiveFixnum v := by
      intro v hv; rw [hv] at h; simp [Marker.isSignedInt] at h
    have h8 : Marker.from_u8 b ≠ .U8 := by
      intro hv; rw [hv] at h; simp [Marker.isSignedInt] at h
    have h16 : Marker.from_u8 b ≠ .U16 := by
      intro hv; rw [hv] at h; simp [Marker.isSignedInt] at h
    have h32 : Marker.from_u8 b ≠ .U32 := by
      intro hv; rw [hv] at h; simp [Marker.isSignedInt] at h
    have h64 : Marker.from_u8 b ≠ .U64 := by
      intro hv; rw [hv] at h; simp [Marker.isSignedInt] at h
    exact ⟨read_u8_loosely_mismatch b rest hp h8,
      read_u16_loosely_mismatch b rest hp h8 h16,
      read_u32_loosely_mismatch b rest hp h8 h16 h32,
      read_u64_loosely_mismatch b rest hp h8 h16 h32 h64⟩
  · intro h
    have hn : ∀ v, Marker.from_u8 b ≠ .NegativeFixnum v := by
      intro v hv; rw [hv] at h; simp [Marker.isUnsignedInt] at h
    have h8 : Marker.from_u8 b ≠ .I8 := by
      intro hv; rw [hv] at h; simp [Marker.isUnsignedInt] at h
    have h16 : Marker.from_u8 b ≠ .I16 := by
      intro hv; rw [hv] at h; simp [Marker.isUnsignedInt] at h
    have h32 : Marker.from_u8 b ≠ .I32 := by
      intro hv; rw [hv] at h; simp [Marker.isUnsignedInt] at h
    have h64 : Marker.from_u8 b ≠ .I64 := by
      intro hv; rw [hv] at h; simp [Marker.isUnsignedInt] at h
    exact ⟨read_i8_loosely_mismatch b rest hn h8,
      read_i16_loosely_mismatch b rest hn h8 h16,
      read_i32_loosely_mismatch b rest hn h8 h16 h32,
      read_i64_loosely_mismatch b rest hn h8 h16 h32 h64⟩
  · intro v hm
    refine ⟨?_, ?_, ?_, ?_⟩ <;>
      simp [read_u8_loosely, read_u16_loosely, read_u32_loosely, read_u64_loosely,
        read_marker, hm]
  · intro hm
    refine ⟨?_, ?_, ?_, ?_⟩ <;>
      simp [read_u8_loosely, read_u16_loosely, read_u32_loosely, read_u64_loosely,
        read_marker, hm]
  · intro hm
    refine ⟨?_, ?_, ?_, ?_⟩ <;>
      simp [read_u8_loosely, read_u16_loosely, read_u32_loosely, read_u64_loosely,
        read_marker, hm]
  · intro hm
    refine ⟨?_, ?_, ?_, ?_⟩ <;>
      simp [read_u8_loosely, read_u16_loosely, read_u32_loosely, read_u64_loosely,
        read_marker, hm]
  · intro hm
    refine ⟨?_, ?_, ?_, ?_⟩ <;>
      simp [read_u8_loosely, read_u16_loosely, read_u32_loosely, read_u64_loosely,
        read_marker, hm]
  · intro v hm
    refine ⟨?_, ?_, ?_, ?_⟩ <;>
      simp [read_i8_loosely, read_i16_loosely, read_i32_loosely, read_i64_loosely,
        read_marker, hm]
  · intro hm
    refine ⟨?_, ?_, ?_, ?_⟩ <;>
      simp [read_i8_loosely, read_i16_loosely, read_i32_loosely, read_i64_loosely,
        read_marker, hm]
  · intro hm
    refine ⟨?_, ?_, ?_, ?_⟩ <;>
      simp [read_i8_loosely, read_i16_loosely, read_i32_loosely, read_i64_loosely,
        read_marker, hm]
  · intro hm
    refine ⟨?_, ?_, ?_, ?_⟩ <;>
      simp [read_i8_loosely, read_i16_loosely, read_i32_loosely, read_i64_loosely,
        read_marker, hm]
  · intro hm
    refine ⟨?_, ?_, ?_, ?_⟩ <;>
      simp [read_i8_loosely, read_i16_loosely, read_i32_loosely, read_i64_loosely,
        read_marker, hm]
  · intro hs hu
    have hp : ∀ v, Marker.from_u8 b ≠ .PositiveFixnum v := by
      intro v hv; rw [hv] at hu; simp [Marker.isUnsignedInt] at hu
    have hu8 : Marker.from_u8 b ≠ .U8 := by
      intro hv; rw [hv] at hu; simp [Marker.isUnsignedInt] at hu
    have hu16 : Marker.from_u8 b ≠ .U16 := by
      intro hv; rw [hv] at hu; simp [Marker.isUnsignedInt] at hu
    have hu32 : Marker.from_u8 b ≠ .U32 := by
      intro hv; rw [hv] at hu; simp [Marker.isUnsignedInt] at hu
    have hu64 : Marker.from_u8 b ≠ .U64 := by
      intro hv; rw [hv] at hu; simp [Marker.isUnsignedInt] at hu
    have hn : ∀ v, Marker.from_u8 b ≠ .NegativeFixnum v := by
      intro v hv; rw [hv] at hs; simp [Marker.isSignedInt] at hs
    have hi8 : Marker.from_u8 b ≠ .I8 := by
      intro hv; rw [hv] at hs; simp [Marker.isSignedInt] at hs
    have hi16 : Marker.from_u8 b ≠ .I16 := by
      intro hv; rw [hv] at hs; simp [Marker.isSignedInt] at hs
    have hi32 : Marker.from_u8 b ≠ .I32 := by
      intro hv; rw [hv] at hs; simp [Marker.isSignedInt] at hs
    have hi64 : Marker.from_u8 b ≠ .I64 := by
      intro hv; rw [hv] at hs; simp [Marker.isSignedInt] at hs
    exact ⟨read_u8_loosely_mismatch b rest hp hu8,
      read_u16_loosely_mismatch b rest hp hu8 hu16,
      read_u32_loosely_mismatch b rest hp hu8 hu16 hu32,
      read_u64_loosely_mismatch b rest hp hu8 hu16 hu32 hu64,
      read_i8_loosely_mismatch b rest hn hi8,
      read_i16_loosely_mismatch b rest hn hi8 hi16,
      read_i32_loosely_mismatch b rest hn hi8 hi16 hi32,
      read_i64_loosely_mismatch b rest hn hi8 hi16 hi32 hi64⟩

/-- C4 witness: the negative fixnum `0xe5` is rejected by `read_u32_loosely`
with a type-mismatch carrying that marker even though `-27` is not the
point — signedness is never coerced; the `u8`-width encoding `[0xcc, 200]`
is widened by `read_u16_loosely` to `200` but rejected by
`read_i16_loosely`. -/
theorem C4_loose_readers_signedness_witness :
    read_u32_loosely [0xe5] =
      (Except.error (ValueReadError.TypeMismatch (.NegativeFixnum (-27))), []) ∧
    read_u16_loosely [0xcc, 200] = (Except.ok 200, []) ∧
    read_i16_loosely [0xcc, 200] =
      (Except.error (ValueReadError.TypeMismatch .U8), [200]) :=
  ⟨((C4_loose_readers_signedness 0xe5 []).1 rfl).2.2.1,
   ((C4_loose_readers_signedness 0xcc [200]).2.2.2.1 rfl).2.1,
   ((C4_loose_readers_signedness 0xcc [200]).2.1 rfl).2.1⟩

lemma toUnsigned_lt (w : Nat) (v : Int) : toUnsigned w v < 2 ^ w := by
  unfold toUnsigned
  have hb : (0 : Int) < 2 ^ w := by positivity
  have h0 : 0 ≤ v % (2 ^ w : Int) := Int.emod_nonneg v (ne_of_gt hb)
  have h1 : v % (2 ^ w : Int) < 2 ^ w := Int.emod_lt_of_pos v hb
  have hc : ((2 ^ w : Nat) : Int) = (2 ^ w : Int) := by push_cast; ring
  omega

/-- C8: every strict reader round-trips the value its own marker encodes —
the decoded value (for floats: bit pattern) is returned unchanged with the
trailing bytes untouched — and fails on any other leading marker with a
type-mismatch carrying the actual marker observed. -/
theorem C8_strict_readers :
    (∀ rest, read_nil (encode_nil ++ rest) = (.ok (), rest)) ∧
    (∀ b rest, Marker.from_u8 b ≠ .Null →
      read_nil (b :: rest) = (.error (.TypeMismatch (Marker.from_u8 b)), rest)) ∧
    (∀ v rest, read_bool (encode_bool v ++ rest) = (.ok v, rest)) ∧
    (∀ b rest, Marker.from_u8 b ≠ .True → Marker.from_u8 b ≠ .False →
      read_bool (b :: rest) = (.error (.TypeMismatch (Marker.from_u8 b)), rest)) ∧
    (∀ v rest, v ≤ 0x7f → read_pfix (encode_pfix v ++ rest) = (.ok v, rest)) ∧
    (∀ b rest, (∀ v, Marker.from_u8 b ≠ .PositiveFixnum v) →
      read_pfix (b :: rest) = (.error (.TypeMismatch (Marker.from_u8 b)), rest)) ∧
    (∀ v rest, -32 ≤ v → v ≤ -1 →
      read_nfix (encode_nfix v ++ rest) = (.ok v, rest)) ∧
    (∀ b rest, (∀ v, Marker.from_u8 b ≠ .NegativeFixnum v) →
      read_nfix (b :: rest) = (.error (.TypeMismatch (Marker.from_u8 b)), rest)) ∧
    (∀ v rest, v < 2 ^ 8 → read_u8 (encode_u8 v ++ rest) = (.ok v, rest)) ∧
    (∀ b rest, Marker.from_u8 b ≠ .U8 →
      read_u8 (b :: rest) = (.error (.TypeMismatch (Marker.from_u8 b)), rest)) ∧
    (∀ v rest, v < 2 ^ 16 → read_u16 (encode_u16 v ++ rest) = (.ok v, rest)) ∧
    (∀ b rest, Marker.from_u8 b ≠ .U16 →
      read_u16 (b :: rest) = (.error (.TypeMismatch (Marker.from_u8 b)), rest)) ∧
    (∀ v rest, v < 2 ^ 32 → read_u32 (encode_u32 v ++ rest) = (.ok v, rest)) ∧
    (∀ b rest, Marker.from_u8 b ≠ .U32 →
      read_u32 (b :: rest) = (.error (.TypeMismatch (Marker.from_u8 b)), rest)) ∧
    (∀ v rest, v < 2 ^ 64 → read_u64 (encode_u64 v ++ rest) = (.ok v, rest)) ∧
    (∀ b rest, Marker.from_u8 b ≠ .U64 →
      read_u64 (b :: rest) = (.error (.TypeMismatch (Marker.from_u8 b)), rest)) ∧
    (∀ v rest, -(2 ^ 7) ≤ v → v < 2 ^ 7 →
      read_i8 (encode_i8 v ++ rest) = (.ok v, rest)) ∧
    (∀ b rest, Marker.from_u8 b ≠ .I8 →
      read_i8 (b :: rest) = (.error (.TypeMismatch (Marker.from_u8 b)), rest)) ∧
    (∀ v rest, -(2 ^ 15) ≤ v → v < 2 ^ 15 →
      read_i16 (encode_i16 v ++ rest) = (.ok v, rest)) ∧
    (∀ b rest, Marker.from_u8 b ≠ .I16 →
      read_i16 (b :: rest) = (.error (.TypeMismatch (Marker.from_u8 b)), rest)) ∧
    (∀ v rest, -(2 ^ 31) ≤ v → v < 2 ^ 31 →
      read_i32 (encode_i32 v ++ rest) = (.ok v, rest)) ∧
    (∀ b rest, Marker.from_u8 b ≠ .I32 →
      read_i32 (b :: rest) = (.error (.TypeMismatch (Marker.from_u8 b)), rest)) ∧
    (∀ v rest, -(2 ^ 63) ≤ v → v < 2 ^ 63 →
      read_i64 (encode_i64 v ++ rest) = (.ok v, rest)) ∧
    (∀ b rest, Marker.from_u8 b ≠ .I64 →
      read_i64 (b :: rest) = (.error (.TypeMismatch (Marker.from_u8 b)), rest)) ∧
    (∀ bits rest, bits < 2 ^ 32 →
      read_f32 (encode_f32 bits ++ rest) = (.ok bits, rest)) ∧
    (∀ b rest, Marker.from_u8 b ≠ .F32 →
      read_f32 (b :: rest) = (.error (.TypeMismatch (Marker.from_u8 b)), rest)) ∧
    (∀ bits rest, bits < 2 ^ 64 →
      read_f64 (encode_f64 bits ++ rest) = (.ok bits, rest)) ∧
    (∀ b rest, Marker.from_u8 b ≠ .F64 →
      read_f64 (b :: rest) = (.error (.TypeMismatch (Marker.from_u8 b)), rest)) := by
  refine ⟨fun rest => rfl, read_nil_mismatch, ?_, read_bool_mismatch,
    ?_, read_pfix_mismatch, ?_, read_nfix_mismatch,
    ?_, read_u8_mismatch, ?_, read_u16_mismatch, ?_, read_u32_mismatch,
    ?_, read_u64_mismatch,
    ?_, read_i8_mismatch, ?_, read_i16_mismatch, ?_, read_i32_mismatch,
    ?_, read_i64_mismatch,
    ?_, read_f32_mismatch, ?_, read_f64_mismatch⟩
  · intro v rest
    cases v <;> rfl
  · intro v rest hv
    simp [encode_pfix, read_pfix, read_marker, Marker.from_u8, hv]
  · intro v rest h1 h2
    have hm : Marker.from_u8 ((v + 256).toNat) = .NegativeFixnum v := by
      unfold Marker.from_u8
      iterate 36 rw [if_neg (by omega)]
      congr 1
      omega
    simp [encode_nfix, read_nfix, read_marker, hm]
  · intro v rest hv
    have hv' : v < 256 ^ 1 := by norm_num; omega
    simp only [encode_u8, List.cons_append]
    unfold read_u8 read_marker
    dsimp only
    rw [show Marker.from_u8 0xcc = Marker.U8 from rfl]
    dsimp only
    unfold read_data_u8
    rw [read_be_beBytes 1 v rest hv']
  · intro v rest hv
    have hv' : v < 256 ^ 2 := by rw [show (256 : Nat) ^ 2 = 2 ^ 16 by norm_num]; exact hv
    simp only [encode_u16, List.cons_append]
    unfold read_u16 read_marker
    dsimp only
    rw [show Marker.from_u8 0xcd = Marker.U16 from rfl]
    dsimp only
    unfold read_data_u16
    rw [read_be_beBytes 2 v rest hv']
  · intro v rest hv
    have hv' : v < 256 ^ 4 := by rw [show (256 : Nat) ^ 4 = 2 ^ 32 by norm_num]; exact hv
    simp only [encode_u32, List.cons_append]
    unfold read_u32 read_marker
    dsimp only
    rw [show Marker.from_u8 0xce = Marker.U32 from rfl]
    dsimp only
    unfold read_data_u32
    rw [read_be_beBytes 4 v rest hv']
  · intro v rest hv
    have hv' : v < 256 ^ 8 := by rw [show (256 : Nat) ^ 8 = 2 ^ 64 by norm_num]; exact hv
    simp only [encode_u64, List.cons_append]
    unfold read_u64 read_marker
    dsimp only
    rw [show Marker.from_u8 0xcf = Marker.U64 from rfl]
    dsimp only
    unfold read_data_u64
    rw [read_be_beBytes 8 v rest hv']
  · intro v rest h1 h2
    have hb : toUnsigned 8 v < 256 ^ 1 := by
      rw [show (256 : Nat) ^ 1 = 2 ^ 8 by norm_num]; exact toUnsigned_lt 8 v
    simp only [encode_i8, List.cons_append]
    unfold read_i8 read_marker
    dsimp only
    rw [show Marker.from_u8 0xd0 = Marker.I8 from rfl]
    dsimp only
    unfold read_data_i8
    rw [read_be_beBytes 1 (toUnsigned 8 v) rest hb]
    dsimp only
    rw [toSigned_toUnsigned 8 (by norm_num) v h1 h2]
  · intro v rest h1 h2
    have hb : toUnsigned 16 v < 256 ^ 2 := by
      rw [show (256 : Nat) ^ 2 = 2 ^ 16 by norm_num]; exact toUnsigned_lt 16 v
    simp only [encode_i16, List.cons_append]
    unfold read_i16 read_marker
    dsimp only
    rw [show Marker.from_u8 0xd1 = Marker.I16 from rfl]
    dsimp only
    unfold read_data_i16
    rw [read_be_beBytes 2 (toUnsigned 16 v) rest hb]
    dsimp only
    rw [toSigned_toUnsigned 16 (by norm_num) v h1 h2]
  · intro v rest h1 h2
    have hb : toUnsigned 32 v < 256 ^ 4 := by
      rw [show (256 : Nat) ^ 4 = 2 ^ 32 by norm_num]; exact toUnsigned_lt 32 v
    simp only [encode_i32, List.cons_append]
    unfold read_i32 read_marker
    dsimp only
    rw [show Marker.from_u8 0xd2 = Marker.I32 from rfl]
    dsimp only
    unfold read_data_i32
    rw [read_be_beBytes 4 (toUnsigned 32 v) rest hb]
    dsimp only
    rw [toSigned_toUnsigned 32 (by norm_num) v h1 h2]
  · intro v rest h1 h2
    have hb : toUnsigned 64 v < 256 ^ 8 := by
      rw [show (256 : Nat) ^ 8 = 2 ^ 64 by norm_num]; exact toUnsigned_lt 64 v
    simp only [encode_i64, List.cons_append]
    unfold read_i64 read_marker
    dsimp only
    rw [show Marker.from_u8 0xd3 = Marker.I64 from rfl]
    dsimp only
    unfold read_data_i64
    rw [read_be_beBytes 8 (toUnsigned 64 v) rest hb]
    dsimp only
    rw [toSigned_toUnsigned 64 (by norm_num) v h1 h2]
  · intro bits rest hv
    have hv' : bits < 256 ^ 4 := by
      rw [show (256 : Nat) ^ 4 = 2 ^ 32 by norm_num]; exact hv
    simp only [encode_f32, List.cons_append]
    unfold read_f32 read_marker
    dsimp only
    rw [show Marker.from_u8 0xca = Marker.F32 from rfl]
    dsimp only
    unfold read_data_f32
    rw [read_be_beBytes 4 bits rest hv']
  · intro bits rest hv
    have hv' : bits < 256 ^ 8 := by
      rw [show (256 : Nat) ^ 8 = 2 ^ 64 by norm_num]; exact hv
    simp only [encode_f64, List.cons_append]
    unfold read_f64 read_marker
    dsimp only
    rw [show Marker.from_u8 0xcb = Marker.F64 from rfl]
    dsimp only
    unfold read_data_f64
    rw [read_be_beBytes 8 bits rest hv']

/-- C8 witness: `read_u32` round-trips `70000` from its `uint32` encoding and,
fed a `float64` encoding, fails with `TypeMismatch(F64)` — the spec's own
example. -/
theorem C8_strict_readers_witness :
    read_u32 [0xce, 0, 1, 17, 112] = (Except.ok 70000, []) ∧
    read_u32 [0xcb, 0, 0, 0, 0, 0, 0, 0, 0] =
      (Except.error (ValueReadError.TypeMismatch .F64), [0, 0, 0, 0, 0, 0, 0, 0]) := by
  have h := C8_strict_readers
  exact ⟨h.2.2.2.2.2.2.2.2.2.2.2.2.1 70000 [] (by norm_num),
    h.2.2.2.2.2.2.2.2.2.2.2.2.2.1 0xcb [0, 0, 0, 0, 0, 0, 0, 0] (by decide)⟩

end MsgPack
